import Mathlib

/-!
Shallow embedding of the glpi-sdk-python source file src/glpi/glpi.py.

Python dictionaries are modelled as association lists (first match wins on
lookup, which agrees with Python dicts since parsed JSON and literal dicts
carry no duplicate keys).  Python None inside a dict value is a dedicated
constructor of the value type.  The HTTP transport (the requests library,
an external collaborator of the repository) is modelled as an explicit
function from issued requests to responses, threaded through every
operation; each operation additionally returns the list of HTTP requests it
issued, so that claims about which calls hit the wire are statable.
JSON response bodies are modelled to the nesting depth the client inspects
(two levels: a top object or array of flat string objects, with one level
of nested objects below the top object).  Session tokens are modelled as
strings, which is the shape the GLPI server returns.  The requests
CaseInsensitiveDict is an external collaborator and is modelled
semantically: a mapping with case-insensitive keys, one entry per
lowercased key.
-/

set_option autoImplicit false

namespace GlpiSdk

/-- A Python scalar value as it appears in parameter and data dictionaries:
None, a string, a bool, or an int. -/
inductive PVal where
  | null
  | str (s : String)
  | bool (b : Bool)
  | int (n : Int)
deriving DecidableEq, Repr

/-- A parameter dictionary: association list of keys to scalar values. -/
abbrev PDict := List (String × PVal)

/-- The data argument of GlpiService.request: either a raw string payload
(as produced by create) or a dictionary. -/
inductive Body where
  | str (s : String)
  | dict (d : PDict)
deriving DecidableEq, Repr

/-- A JSON leaf value in a server response: string or number.  Numbers are
modelled as integers, the only numeric fields the client inspects. -/
inductive JLeaf where
  | jstr (s : String)
  | jnum (n : Int)
deriving DecidableEq, Repr

/-- A JSON value one level below the top of a response object: a leaf or a
flat object of leaves.  This is the deepest shape the client inspects
(error.description). -/
inductive JVal where
  | leaf (l : JLeaf)
  | obj (fields : List (String × JLeaf))
deriving DecidableEq, Repr

/-- A parsed JSON response body: a top-level object, or an array of flat
string objects (the shape of item lists consumed by search). -/
inductive RespBody where
  | obj (fields : List (String × JVal))
  | arr (items : List (List (String × String)))
deriving DecidableEq, Repr

/-- Authentication information attached to a request by the transport:
a pre-issued token or basic username/password credentials. -/
inductive AuthInfo where
  | token (t : String)
  | basic (u p : Option String)
deriving DecidableEq, Repr

/-- Header map: association list from key to value, where a value of none
models Python None.  Header maps built by the client keep keys lowercased,
modelling the requests CaseInsensitiveDict. -/
abbrev Headers := List (String × Option String)

/-- An HTTP request as handed to the transport (the arguments the code
passes to requests.request; the json and files arguments of
GlpiService.request are never forwarded there, so they do not appear). -/
structure HttpRequest where
  method : String
  url : String
  headers : Headers
  params : Option PDict
  auth : Option AuthInfo
  data : Option Body
deriving DecidableEq, Repr

/-- An HTTP response from the transport.  body is the parsed JSON body, or
none when the body does not parse as JSON (response.json() raises). -/
structure HttpResponse where
  status : Nat
  body : Option RespBody
deriving DecidableEq, Repr

/-- The transport: the requests library plus the network, modelled as a
pure function. -/
abbrev Transport := HttpRequest → HttpResponse

/-- Python exceptions raised by the code under analysis. -/
inductive PyError where
  | glpiException (msg : String)
  | glpiInvalidArgument (msg : String)
  | exception (msg : String)
  | keyError
  | typeError
  | attributeError
deriving DecidableEq, Repr

/-- String rendering of an exception, used when one exception message
embeds another. -/
def PyError.text : PyError → String
  | .glpiException m => m
  | .glpiInvalidArgument m => m
  | .exception m => m
  | .keyError => "KeyError"
  | .typeError => "TypeError"
  | .attributeError => "AttributeError"

/-- Dictionary lookup on a string-to-string association list. -/
def lookupStr (l : List (String × String)) (k : String) : Option String :=
  (l.find? (fun kv => kv.1 = k)).map (fun kv => kv.2)

/-- Dictionary lookup on a parsed JSON object. -/
def lookupJ (l : List (String × JVal)) (k : String) : Option JVal :=
  (l.find? (fun kv => kv.1 = k)).map (fun kv => kv.2)

/-- Dictionary lookup on a nested JSON object of leaves. -/
def lookupL (l : List (String × JLeaf)) (k : String) : Option JLeaf :=
  (l.find? (fun kv => kv.1 = k)).map (fun kv => kv.2)

/-- Source function remove_null_values (underscore dropped), on a
parameter dictionary: drop every key whose value is None. -/
def remove_null_values (d : PDict) : PDict :=
  d.filter (fun kv => kv.2 ≠ PVal.null)

/-- remove_null_values on the data argument: a non-dict argument (the raw
string payload) is returned unchanged, matching the isinstance check. -/
def remove_null_values_body (b : Body) : Body :=
  match b with
  | .str s => .str s
  | .dict d => .dict (remove_null_values d)

/-- remove_null_values on a header dictionary. -/
def remove_null_values_headers (h : Headers) : Headers :=
  h.filter (fun kv => kv.2 ≠ none)

/-- Source function cleanup_param_value (underscore dropped): booleans
become the literal strings true and false, everything else is unchanged. -/
def cleanup_param_value (v : PVal) : PVal :=
  match v with
  | .bool b => .str (if b then "true" else "false")
  | other => other

/-- Source function cleanup_param_values (underscore dropped). -/
def cleanup_param_values (d : PDict) : PDict :=
  d.map (fun kv => (kv.1, cleanup_param_value kv.2))

/-- ASCII lowercasing of one character, the effect of Python str.lower on
the ASCII strings this protocol uses (written out so that it reduces
inside the kernel, which String.toLower does not). -/
def charLower (c : Char) : Char :=
  if 65 ≤ c.toNat ∧ c.toNat ≤ 90 then Char.ofNat (c.toNat + 32) else c

/-- Python str.lower restricted to ASCII. -/
def pyLower (s : String) : String := String.mk (s.data.map charLower)

/-- Case-insensitive header lookup, modelling CaseInsensitiveDict
indexing; returns the stored value (itself an Option String) when the key
is present under any casing. -/
def getCI (h : Headers) (k : String) : Option (Option String) :=
  (h.find? (fun kv => kv.1 = pyLower k)).map (fun kv => kv.2)

/-- Case-insensitive header insertion, modelling CaseInsensitiveDict
assignment: at most one entry per lowercased key. -/
def setCI (h : Headers) (k : String) (v : Option String) : Headers :=
  (pyLower k, v) :: h.filter (fun kv => kv.1 ≠ pyLower k)

/-- CaseInsensitiveDict.update with another header dictionary: entries are
inserted left to right, later entries overriding earlier ones and the
updated map alike. -/
def updateCI (h : Headers) (kvs : Headers) : Headers :=
  kvs.foldl (fun acc kv => setCI acc kv.1 kv.2) h

/-- The last entry of a header list whose key matches k case-insensitively,
if any; this is the entry that survives a CaseInsensitiveDict update. -/
def findLastCI (kvs : Headers) (k : String) : Option (Option String) :=
  match kvs with
  | [] => none
  | kv :: rest =>
    match findLastCI rest k with
    | some v => some v
    | none => if pyLower kv.1 = pyLower k then some kv.2 else none

/-- The SDK version string.  The source imports it from a version module
that is an external collaborator of this file; its concrete value is
irrelevant to every claim. -/
def sdkVersion : String := "0.0.0"

/-- The state of a GlpiService instance: the fields assigned by the
constructor.  session is the cached session token (None until a session
is initialized). -/
structure Client where
  url : String
  app_token : Option String
  uri : String
  username : Option String
  password : Option String
  token_auth : Option String
  session : Option String
deriving DecidableEq, Repr

/-- GlpiService.set_username_and_password normalization of the username:
the documentation placeholder collapses to None. -/
def normUsername (u : Option String) : Option String :=
  if u = some "YOUR SERVICE USERNAME" then none else u

/-- GlpiService.set_username_and_password normalization of the password. -/
def normPassword (p : Option String) : Option String :=
  if p = some "YOUR SERVICE PASSWORD" then none else p

/-- GlpiService.set_token_auth normalization: the documentation
placeholder collapses to None. -/
def normTokenAuth (t : String) : Option String :=
  if t = "YOUR AUTH TOKEN" then none else some t

/-- The credential-presence error message raised at the end of the
constructor.  The source concatenates two adjacent string literals with no
separating space between token_auth and service, reproduced verbatim. -/
def credErrMsg : String :=
  "You must specify your username and password, or token_auth" ++
    "service credentials "

/-- The app-token error message raised by the constructor. -/
def appTokenErrMsg : String :=
  "You must specify GLPI API-Token(app_token) to make API calls"

/-- The final validation checks of GlpiService.init after credential
normalization: app token present, then at least one credential form. -/
def finishInit (url : String) (token_app : Option String) (uri : String)
    (u p t : Option String) : Except PyError Client :=
  if token_app = none then
    .error (.glpiException appTokenErrMsg)
  else if (u = none ∨ p = none) ∧ t = none then
    .error (.glpiException credErrMsg)
  else
    .ok { url := url, app_token := token_app, uri := uri,
          username := u, password := p, token_auth := t, session := none }

/-- GlpiService.init (the constructor), for the default
use_vcap_services = False so the environment-sourced credential branch
(an external collaborator reading process state) is not entered. -/
def glpiServiceInit (url : String) (token_app : Option String) (uri : String)
    (username password token_auth : Option String) : Except PyError Client :=
  match token_auth with
  | some ta =>
    if username ≠ none ∨ password ≠ none then
      .error (.glpiInvalidArgument
        "Cannot set token_auth and username and password together")
    else
      finishInit url token_app uri username password (normTokenAuth ta)
  | none =>
      finishInit url token_app uri (normUsername username)
        (normPassword password) none

/-- GlpiService.set_session_token: issues the initSession request and
caches the returned session token.  Any failure to extract session_token
from the response body raises (modelled as the generic exception). -/
def set_session_token (t : Transport) (c : Client) :
    Except PyError Client × List HttpRequest :=
  let req : HttpRequest :=
    { method := "GET", url := c.url ++ "/initSession",
      headers := [("App-Token", c.app_token),
                  ("Content-Type", some "application/json")],
      params := none,
      auth := some (match c.token_auth with
        | some ta => .token ta
        | none => .basic c.username c.password),
      data := none }
  let r := t req
  match r.body with
  | some (.obj j) =>
    match lookupJ j "session_token" with
    | some (.leaf (.jstr tok)) => (.ok { c with session := some tok }, [req])
    | _ => (.error (.exception "Unable to init session in GLPI server"), [req])
  | _ => (.error (.exception "Unable to init session in GLPI server"), [req])

/-- The session-ensuring step at the top of GlpiService.request: a cached
session is reused, otherwise set_session_token runs. -/
def ensureSession (t : Transport) (c : Client) :
    Except PyError Client × List HttpRequest :=
  match c.session with
  | some _ => (.ok c, [])
  | none => set_session_token t c

/-- GlpiService.get_session_token: returns the client with a session
cached, lazily initializing on first use. -/
def get_session_token (t : Transport) (c : Client) :
    Except PyError Client × List HttpRequest :=
  match c.session with
  | some _ => (.ok c, [])
  | none => set_session_token t c

/-- The header construction of GlpiService.request (lines 243 to 261 of the
source): null-strip the caller headers, seed a case-insensitive map with
the SDK user-agent, optionally set accept, set Session-Token from the
(by now ensured) cached session and App-Token when present, and finally
merge the caller headers in via update, so later caller entries override
everything set before them. -/
def buildHeaders (session : Option String) (app_token : Option String)
    (acceptJson : Bool) (caller : Headers) : Headers :=
  let input := remove_null_values_headers caller
  let h0 : Headers := [("user-agent", some ("glpi-sdk-python-" ++ sdkVersion))]
  let h1 := if acceptJson then setCI h0 "accept" (some "application/json") else h0
  let h2 := setCI h1 "Session-Token" session
  let h3 :=
    match app_token with
    | some t => setCI h2 "App-Token" (some t)
    | none => h2
  updateCI h3 input

/-- The single HTTP request that GlpiService.request hands to the
transport, given the client state after session ensuring: full URL from
base plus path, built headers, null-stripped and boolean-cleaned params,
null-stripped data; no auth, and neither json nor files are forwarded. -/
def issuedRequest (c : Client) (method url : String) (acceptJson : Bool)
    (headers : Headers) (params : Option PDict) (data : Option Body) :
    HttpRequest :=
  { method := method,
    url := c.url ++ url,
    headers := buildHeaders c.session c.app_token acceptJson headers,
    params := (params.map remove_null_values).map cleanup_param_values,
    auth := none,
    data := data.map remove_null_values_body }

/-- The field-probing chain of GlpiService.get_error_message inside its
try block: the keys error (possibly a nested object carrying description),
error_message, msg, statusInfo, probed in that order.  A successful string
concatenation yields ok; a Python TypeError from concatenating a non-string
is modelled as error carrying the message accumulated so far (the bare
except then returns that accumulated message). -/
def gemProbe (j : List (String × JVal)) : Except String String :=
  match lookupJ j "error" with
  | some (.obj fields) =>
    match lookupL fields "description" with
    | some (.jstr s) => .ok ("Error: " ++ s)
    | some (.jnum _) => .error "Unknown error"
    | none => .error "Unknown error"
  | some (.leaf (.jstr s)) => .ok ("Error: " ++ s)
  | some (.leaf (.jnum _)) => .error "Unknown error"
  | none =>
    match lookupJ j "error_message" with
    | some (.leaf (.jstr s)) => .ok ("Error: " ++ s)
    | some _ => .error "Unknown error"
    | none =>
      match lookupJ j "msg" with
      | some (.leaf (.jstr s)) => .ok ("Error: " ++ s)
      | some _ => .error "Unknown error"
      | none =>
        match lookupJ j "statusInfo" with
        | some (.leaf (.jstr s)) => .ok ("Error: " ++ s)
        | some _ => .error "Unknown error"
        | none => .ok "Unknown error"

/-- GlpiService.get_error_message (underscore dropped).  When the body does
not parse as JSON, response.json() raises at once and the bare except
returns the initial message with nothing appended.  When the body is a
JSON array, none of the membership tests match (the elements are objects,
never the probed key strings), so only the code suffix is appended.  For a
JSON object the probe chain runs, then a top-level description is appended,
then the status code; a TypeError at any concatenation is swallowed by the
bare except, returning the message accumulated so far. -/
def get_error_message (status : Nat) (body : Option RespBody) : String :=
  match body with
  | none => "Unknown error"
  | some (.arr _) => "Unknown error" ++ ", Code: " ++ toString status
  | some (.obj j) =>
    match gemProbe j with
    | .error m => m
    | .ok em =>
      match lookupJ j "description" with
      | some (.leaf (.jstr s)) =>
          em ++ ", Description: " ++ s ++ ", Code: " ++ toString status
      | some _ => em
      | none => em ++ ", Code: " ++ toString status

/-- Whether a parsed 2xx body signals an application-level error: a
top-level status field whose value equals the string ERROR.  A non-string
status field never compares equal to a string in Python. -/
def bodyStatusIsError (b : RespBody) : Bool :=
  match b with
  | .obj j =>
    match lookupJ j "status" with
    | some (.leaf (.jstr s)) => s = "ERROR"
    | _ => false
  | .arr _ => false

/-- The outcome of GlpiService.request on success: the parsed JSON body
when accept_json was set, otherwise the raw response object. -/
inductive ReqOk where
  | json (b : RespBody)
  | raw (r : HttpResponse)
deriving DecidableEq, Repr

/-- The full outcome of GlpiService.request: the client state afterwards
(the session may have been initialized), the result or raised exception,
the status_code field of the response object after any mutation by the
error-remapping branch (none when no response was obtained), and the list
of HTTP requests issued, session initialization included. -/
structure ReqOutcome where
  client : Client
  result : Except PyError ReqOk
  finalStatus : Option Nat
  trace : List HttpRequest
deriving Repr

/-- The response-handling tail of GlpiService.request (lines 274 to 295).
On 2xx with accept_json: an unparseable body makes response.json() raise;
a body whose status field is the string ERROR re-assigns status_code to
400, takes statusInfo as the message when present (a non-string statusInfo
makes the later string concatenation raise a TypeError), re-assigns
status_code to 401 exactly when that message is the literal
invalid-app-token, and raises GlpiException.  On 2xx otherwise the parsed
body or raw response is returned.  Outside 2xx, 401 yields the fixed
unauthorized message and anything else goes through get_error_message. -/
def handleResponse (c : Client) (acceptJson : Bool) (resp : HttpResponse)
    (tr : List HttpRequest) : ReqOutcome :=
  if 200 ≤ resp.status ∧ resp.status ≤ 299 then
    if acceptJson then
      match resp.body with
      | none =>
        { client := c,
          result := .error (.exception "Unable to parse response body as JSON"),
          finalStatus := some resp.status, trace := tr }
      | some b =>
        if bodyStatusIsError b then
          match b with
          | .obj j =>
            match lookupJ j "statusInfo" with
            | some (.leaf (.jstr s)) =>
              { client := c,
                result := .error (.glpiException ("Error: " ++ s)),
                finalStatus := some (if s = "invalid-app-token" then 401 else 400),
                trace := tr }
            | some _ =>
              { client := c, result := .error .typeError,
                finalStatus := some 400, trace := tr }
            | none =>
              { client := c,
                result := .error (.glpiException ("Error: " ++ "Unknown error")),
                finalStatus := some 400, trace := tr }
          | .arr _ =>
            { client := c, result := .ok (.json b),
              finalStatus := some resp.status, trace := tr }
        else
          { client := c, result := .ok (.json b),
            finalStatus := some resp.status, trace := tr }
    else
      { client := c, result := .ok (.raw resp),
        finalStatus := some resp.status, trace := tr }
  else
    if resp.status = 401 then
      { client := c,
        result := .error (.glpiException
          "Unauthorized: Access is denied due to invalid credentials "),
        finalStatus := some resp.status, trace := tr }
    else
      { client := c,
        result := .error (.glpiException (get_error_message resp.status resp.body)),
        finalStatus := some resp.status, trace := tr }

/-- GlpiService.request.  Parameters follow the source signature: method,
url, accept_json, headers, params, json, data, files.  The json and files
arguments are null-stripped like the others (lines 266 and 268) but the
stripped values are never forwarded to the transport, which only receives
method, full url, headers, params and data. -/
def request (t : Transport) (c : Client) (method url : String)
    (acceptJson : Bool) (headers : Headers) (params : Option PDict)
    (json : Option PDict) (data : Option Body) (files : Option PDict) :
    ReqOutcome :=
  match ensureSession t c with
  | (.error e, tr) =>
    { client := c,
      result := .error (.exception
        ("Unable to get Session token. ERROR: " ++ e.text)),
      finalStatus := none, trace := tr }
  | (.ok c2, tr) =>
    let _jsonStripped := json.map remove_null_values
    let _filesStripped := files.map remove_null_values
    let req := issuedRequest c2 method url acceptJson headers params data
    handleResponse c2 acceptJson (t req) (tr ++ [req])

/-- Python str() rendering of a scalar value, as used by the percent
formatting in get_payload and in the get error message. -/
def pyStr (v : PVal) : String :=
  match v with
  | .null => "None"
  | .str s => s
  | .bool b => if b then "True" else "False"
  | .int n => toString n

/-- One key/value fragment of GlpiService.get_payload: the null sentinel
renders as null, strings are quoted (without escaping, as in the source),
and anything else renders via str().  Each fragment starts with the space
the format string of the source places before the key. -/
def payloadFragment (k : String) (v : PVal) : String :=
  match v with
  | .str s =>
    if s = "<DEFAULT_NULL>" then " \"" ++ k ++ "\": null"
    else " \"" ++ k ++ "\": \"" ++ s ++ "\""
  | other => " \"" ++ k ++ "\": " ++ pyStr other

/-- GlpiService.get_payload: comma-join the fragments.  The source guards
the comma with an identity comparison against the empty string literal,
which is equivalent to an emptiness test here because every fragment is
nonempty. -/
def get_payload (d : PDict) : String :=
  d.foldl (fun acc kv =>
    (if acc = "" then acc else acc ++ ",") ++ payloadFragment kv.1 kv.2) ""

/-- The result of a service or router item operation. -/
inductive OpResult where
  | json (b : RespBody)
  | dict1 (key msg : String)
  | strLit (s : String)
  | items (l : List (List (String × String)))
deriving DecidableEq, Repr

/-- The outcome of a service or router item operation: client state,
result or raised exception, and the HTTP requests issued. -/
structure OpOutcome where
  client : Client
  result : Except PyError OpResult
  trace : List HttpRequest
deriving Repr

/-- The res.json() step shared by get_all and get: the raw response body
must parse as JSON, otherwise response.json() raises. -/
def responseJson (o : ReqOutcome) : OpOutcome :=
  match o.result with
  | .error e => { client := o.client, result := .error e, trace := o.trace }
  | .ok (.raw resp) =>
    match resp.body with
    | some b => { client := o.client, result := .ok (.json b), trace := o.trace }
    | none =>
      { client := o.client,
        result := .error (.exception "Unable to parse response body as JSON"),
        trace := o.trace }
  | .ok (.json b) =>
    { client := o.client, result := .ok (.json b), trace := o.trace }

/-- GlpiService.get_all: GET the bound uri and parse the body. -/
def service_get_all (t : Transport) (c : Client) : OpOutcome :=
  responseJson (request t c "GET" c.uri false [] none none none none)

/-- The string literal returned by GlpiService.create for a None argument
(single quotes as in the source). -/
def objectNotFoundStr : String :=
  "\x7b " ++ "\x27error_message\x27 : \x27Object not found.\x27" ++ "\x7d"

/-- Repackaging of a request outcome as a create outcome: accept_json is
set, so a successful request always carries a parsed body. -/
def createResult (o : ReqOutcome) : OpOutcome :=
  match o.result with
  | .error e => { client := o.client, result := .error e, trace := o.trace }
  | .ok (.json b) =>
    { client := o.client, result := .ok (.json b), trace := o.trace }
  | .ok (.raw _) =>
    { client := o.client, result := .error .typeError, trace := o.trace }

/-- The input envelope POSTed by GlpiService.create. -/
def createPayload (d : PDict) : String :=
  "\x7b\"input\": \x7b " ++ get_payload d ++ " \x7d\x7d"

/-- GlpiService.create: None data returns the error string literal with no
HTTP activity; any dict (an empty one included) is wrapped in the input
envelope and POSTed with accept_json set. -/
def service_create (t : Transport) (c : Client) (object_data : Option PDict) :
    OpOutcome :=
  match object_data with
  | none =>
    { client := c, result := .ok (.strLit objectNotFoundStr), trace := [] }
  | some d =>
    createResult
      (request t c "POST" c.uri true [] none none (some (.str (createPayload d))) none)

/-- The GET by id core of GlpiService.get, for an id that passed the
isinstance int check, already rendered by the percent-d format. -/
def service_get_by_id (t : Transport) (c : Client) (idStr : String) :
    OpOutcome :=
  responseJson
    (request t c "GET" ("/" ++ c.uri ++ "/" ++ idStr) false [] none none none none)

/-- GlpiService.get: an int id (Python bools are ints and render as 1 or 0
under percent-d) is fetched; anything else returns the error dictionary
with the misspelled message of the source, issuing no HTTP call. -/
def service_get (t : Transport) (c : Client) (item_id : PVal) : OpOutcome :=
  match item_id with
  | .int n => service_get_by_id t c (toString n)
  | .bool b => service_get_by_id t c (if b then "1" else "0")
  | other =>
    { client := c,
      result := .ok (.dict1 "error_message"
        ("Unale to get " ++ c.uri ++ " ID [" ++ pyStr other ++ "]")),
      trace := [] }

/-- The state of a GLPI router instance. -/
structure Router where
  url : String
  app_token : Option String
  auth_token : Option String
  item_uri : Option String
  item_map : List (String × String)
  api_rest : Option Client
  api_session : Option String
deriving DecidableEq, Repr

/-- The built-in item map of the GLPI constructor. -/
def defaultItemMap : List (String × String) :=
  [("ticket", "/Ticket"), ("knowbase", "/knowbaseitem"),
   ("listSearchOptions", "/listSearchOptions")]

/-- GLPI.init: the default map is installed, then replaced wholesale when
a custom map is supplied. -/
def glpiInit (url : String) (app_token auth_token : Option String)
    (item_map : Option (List (String × String))) : Router :=
  { url := url, app_token := app_token, auth_token := auth_token,
    item_uri := none,
    item_map := match item_map with
      | some m => m
      | none => defaultItemMap,
    api_rest := none, api_session := none }

/-- GLPI.set_api_uri: push the bound item uri into the service client.
Both fields are present on every path that reaches this call from
init_item; other shapes would raise in Python and are left unchanged
here as an unreachable default. -/
def set_api_uri (r : Router) : Router :=
  match r.api_rest, r.item_uri with
  | some c, some uri => { r with api_rest := some { c with uri := uri } }
  | _, _ => r

/-- GLPI.init_api: with an item bound, construct the service client (its
constructor may raise) and obtain a session token (which may issue the
initSession request and may raise).  Partial mutations before a raise are
retained, as in Python. -/
def init_api (t : Transport) (r : Router) :
    Router × Except PyError OpResult × List HttpRequest :=
  match r.item_uri with
  | none =>
    (r, .ok (.dict1 "message_error" "Please use set_item() before init API."), [])
  | some uri =>
    match glpiServiceInit r.url r.app_token uri none none r.auth_token with
    | .error e => (r, .error e, [])
    | .ok c =>
      let r1 := { r with api_rest := some c }
      match get_session_token t c with
      | (.error e, tr) => (r1, .error e, tr)
      | (.ok c2, tr) =>
        let r2 := { r1 with api_rest := some c2, api_session := c2.session }
        match c2.session with
        | some tok => (r2, .ok (.dict1 "session_token" tok), tr)
        | none =>
          (r2, .ok (.dict1 "message_error"
            "Unable to InitSession in GLPI Server."), tr)

/-- GLPI.init_item: look the item name up in the map (an unknown name
raises KeyError before anything else), rebind the uri when it differs,
lazily construct the API client (a bare except turns any raise from
init_api into a False return), and push the rebound uri into the client.
The boolean is the Python return value. -/
def init_item (t : Transport) (r : Router) (item_name : String) :
    Router × Except PyError Bool × List HttpRequest :=
  match lookupStr r.item_map item_name with
  | none => (r, .error .keyError, [])
  | some uri =>
    let update_api : Bool := r.item_uri != some uri
    let r1 := if update_api then { r with item_uri := some uri } else r
    match r1.api_rest with
    | none =>
      match init_api t r1 with
      | (r2, .error _, tr) => (r2, .ok false, tr)
      | (r2, .ok _, tr) =>
        ((if update_api then set_api_uri r2 else r2), .ok true, tr)
    | some _ =>
      ((if update_api then set_api_uri r1 else r1), .ok true, [])

/-- Delegation of a router operation to a service-level operation after a
successful init_item, rebinding the mutated client into the router. -/
def delegate (r : Router) (tr : List HttpRequest) (o : OpOutcome) :
    Router × Except PyError OpResult × List HttpRequest :=
  ({ r with api_rest := some o.client }, o.result, tr ++ o.trace)

/-- GLPI.get_all. -/
def router_get_all (t : Transport) (r : Router) (item_name : String) :
    Router × Except PyError OpResult × List HttpRequest :=
  match init_item t r item_name with
  | (r1, .error e, tr) => (r1, .error e, tr)
  | (r1, .ok false, tr) =>
    (r1, .ok (.dict1 "message_error" "Unable to get Item in GLPI Server."), tr)
  | (r1, .ok true, tr) =>
    match r1.api_rest with
    | none => (r1, .error .attributeError, tr)
    | some c => delegate r1 tr (service_get_all t c)

/-- GLPI.get. -/
def router_get (t : Transport) (r : Router) (item_name : String)
    (item_id : PVal) : Router × Except PyError OpResult × List HttpRequest :=
  match init_item t r item_name with
  | (r1, .error e, tr) => (r1, .error e, tr)
  | (r1, .ok false, tr) =>
    (r1, .ok (.dict1 "message_error" "Unable to get Item by ID in GLPI Server."), tr)
  | (r1, .ok true, tr) =>
    match r1.api_rest with
    | none => (r1, .error .attributeError, tr)
    | some c => delegate r1 tr (service_get t c item_id)

/-- GLPI.create. -/
def router_create (t : Transport) (r : Router) (item_name : String)
    (item_data : Option PDict) :
    Router × Except PyError OpResult × List HttpRequest :=
  match init_item t r item_name with
  | (r1, .error e, tr) => (r1, .error e, tr)
  | (r1, .ok false, tr) =>
    (r1, .ok (.dict1 "message_error" "Unable to create an Item in GLPI Server."), tr)
  | (r1, .ok true, tr) =>
    match r1.api_rest with
    | none => (r1, .error .attributeError, tr)
    | some c => delegate r1 tr (service_create t c item_data)

/-- Executable prefix test on character lists. -/
def listPrefix : List Char → List Char → Bool
  | [], _ => true
  | _ :: _, [] => false
  | a :: as, b :: bs => a = b && listPrefix as bs

/-- Executable infix test on character lists. -/
def listInfix : List Char → List Char → Bool
  | pat, [] => pat.isEmpty
  | pat, c :: rest => listPrefix pat (c :: rest) || listInfix pat rest

/-- The Python substring operator: pat in hay. -/
def strIn (pat hay : String) : Bool :=
  listInfix pat.toList hay.toList

/-- One search criterion as consumed by GLPI.search_criteria: the entries
the code indexes out of each criterion dictionary. -/
structure Criterion where
  field : String
  value : String
deriving DecidableEq, Repr

/-- An item as consumed by GLPI.search_criteria: a flat dictionary with
string values (the shape get_all returns for item lists). -/
abbrev Item := List (String × String)

/-- The inner loop of GLPI.search_criteria for one item: the find flag is
folded over all criteria (Python does not break on a match); a criterion
whose field the item lacks raises KeyError. -/
def search_find (d : Item) : List Criterion → Bool → Except PyError Bool
  | [], find => .ok find
  | c :: rest, find =>
    match lookupStr d c.field with
    | none => .error .keyError
    | some s =>
      search_find d rest (find || strIn (pyLower c.value) (pyLower s))

/-- GLPI.search_criteria: keep, in order, every item whose find flag ends
true; a raise anywhere aborts the whole computation. -/
def search_criteria (data : List Item) (criteria : List Criterion) :
    Except PyError (List Item) :=
  match data with
  | [] => .ok []
  | d :: rest =>
    match search_find d criteria false with
    | .error e => .error e
    | .ok find =>
      match search_criteria rest criteria with
      | .error e => .error e
      | .ok res => .ok (if find then d :: res else res)

/-- The argument of GLPI.search: a dictionary probed with has_key for the
keys criteria and metacriteria, in that order.  The metacriteria payload is
never inspected by the stub, so only its presence is modelled. -/
structure SearchQuery where
  criteria : Option (List Criterion)
  metacriteria : Option Unit
deriving Repr

/-- GLPI.search.  The criteria key wins when present: get_all fetches the
data and search_criteria filters it.  When get_all produced a dictionary
instead of a list (for example a message_error dictionary), Python would
iterate its keys and raise a TypeError on string indexing as soon as a
criterion is applied to a key; with no criteria or no keys the loop yields
an empty result.  Without criteria, a metacriteria key returns the fixed
stub and anything else the validation error dictionary. -/
def router_search (t : Transport) (r : Router) (item_name : String)
    (q : SearchQuery) : Router × Except PyError OpResult × List HttpRequest :=
  match q.criteria with
  | some crit =>
    match router_get_all t r item_name with
    | (r1, .error e, tr) => (r1, .error e, tr)
    | (r1, .ok res, tr) =>
      match res with
      | .json (.arr items) =>
        match search_criteria items crit with
        | .error e => (r1, .error e, tr)
        | .ok out => (r1, .ok (.items out), tr)
      | .json (.obj fields) =>
        if fields.isEmpty || crit.isEmpty then (r1, .ok (.items []), tr)
        else (r1, .error .typeError, tr)
      | .dict1 _ _ =>
        if crit.isEmpty then (r1, .ok (.items []), tr)
        else (r1, .error .typeError, tr)
      | _ => (r1, .error .typeError, tr)
  | none =>
    match q.metacriteria with
    | some _ => (r, .ok (.dict1 "message_info" "Not implemented yet"), [])
    | none =>
      (r, .ok (.dict1 "message_error" "Unable to find a valid criteria."), [])

/-- Finding a key among the entries that survived deletion of another key
is the same as finding it in the original list. -/
theorem find?_filter_ne (h : Headers) (n m : String) (hne : m ≠ n) :
    ((h.filter (fun kv => kv.1 ≠ n)).find? (fun kv => kv.1 = m)) =
      h.find? (fun kv => kv.1 = m) := by
  induction h with
  | nil => rfl
  | cons x xs ih =>
    by_cases hx : x.1 = n
    · have hxm : ¬(x.1 = m) := by
        intro hm
        exact hne (hm ▸ hx)
      rw [List.filter_cons_of_neg (by simp [hx]),
        List.find?_cons_of_neg _ (by simp [hxm]), ih]
    · by_cases hxm : x.1 = m
      · rw [List.filter_cons_of_pos (by simp [hx]),
          List.find?_cons_of_pos _ (by simp [hxm]),
          List.find?_cons_of_pos _ (by simp [hxm])]
      · rw [List.filter_cons_of_pos (by simp [hx]),
          List.find?_cons_of_neg _ (by simp [hxm]),
          List.find?_cons_of_neg _ (by simp [hxm]), ih]

/-- Lookup after a case-insensitive insertion: the inserted key is found
with the new value, every other key is unaffected. -/
theorem getCI_setCI (h : Headers) (k k' : String) (v : Option String) :
    getCI (setCI h k v) k' =
      if pyLower k' = pyLower k then some v else getCI h k' := by
  by_cases he : pyLower k' = pyLower k
  · simp [getCI, setCI, he, List.find?_cons_of_pos]
  · have he2 : ¬(pyLower k = pyLower k') := fun hh => he hh.symm
    simp only [getCI, setCI, he, if_false]
    rw [List.find?_cons_of_neg _ (by simp [he2]), find?_filter_ne _ _ _ he]

/-- Lookup after a case-insensitive bulk update: the last matching entry
of the update list wins, and a key the update list does not mention keeps
its previous value. -/
theorem getCI_updateCI (kvs : Headers) (h : Headers) (k : String) :
    getCI (updateCI h kvs) k =
      match findLastCI kvs k with
      | some v => some v
      | none => getCI h k := by
  induction kvs generalizing h with
  | nil => rfl
  | cons kv rest ih =>
    show getCI (updateCI (setCI h kv.1 kv.2) rest) k = _
    rw [ih]
    cases hr : findLastCI rest k with
    | some v => simp [findLastCI, hr]
    | none =>
      rw [getCI_setCI]
      by_cases hk : pyLower kv.1 = pyLower k
      · simp [findLastCI, hr, hk]
      · have hk2 : ¬(pyLower k = pyLower kv.1) := fun hh => hk hh.symm
        simp [findLastCI, hr, hk, hk2]

/-- GlpiService.request with a cached session issues exactly one HTTP
request, the issuedRequest, and hands its response to the handling tail. -/
theorem request_cached (t : Transport) (c : Client) (m u : String)
    (aj : Bool) (hs : Headers) (p : Option PDict) (j : Option PDict)
    (d : Option Body) (f : Option PDict) (tok : String)
    (hsess : c.session = some tok) :
    request t c m u aj hs p j d f =
      handleResponse c aj (t (issuedRequest c m u aj hs p d))
        [issuedRequest c m u aj hs p d] := by
  unfold request ensureSession
  rw [hsess]
  rfl

/-- The response-handling tail never alters the request trace it is
given. -/
theorem handleResponse_trace (c : Client) (aj : Bool) (resp : HttpResponse)
    (tr : List HttpRequest) : (handleResponse c aj resp tr).trace = tr := by
  unfold handleResponse
  repeat' split
  all_goals rfl

/-- createResult preserves the request trace. -/
theorem createResult_trace (o : ReqOutcome) :
    (createResult o).trace = o.trace := by
  unfold createResult
  repeat' split
  all_goals rfl

/-- cleanup_param_value never produces None from a non-None value. -/
theorem cleanup_param_value_ne_null (v : PVal) (hv : v ≠ PVal.null) :
    cleanup_param_value v ≠ PVal.null := by
  cases v with
  | null => exact absurd rfl hv
  | str s => simp [cleanup_param_value]
  | bool b => simp [cleanup_param_value]
  | int n => simp [cleanup_param_value]

/-- cleanup_param_value never produces a native boolean. -/
theorem cleanup_param_value_ne_bool (v : PVal) (b : Bool) :
    cleanup_param_value v ≠ PVal.bool b := by
  cases v <;> simp [cleanup_param_value]

/-- Entries surviving remove_null_values are exactly the non-None ones. -/
theorem mem_remove_null_values (d : PDict) (kv : String × PVal)
    (h : kv ∈ remove_null_values d) : kv.2 ≠ PVal.null := by
  have := List.mem_filter.mp h
  simpa using this.2

/-- The inner criteria loop under the assumption that every criterion
field is present in the item: the find flag ends true exactly when some
criterion value occurs case-insensitively inside the item value. -/
theorem search_find_ok (d : Item) (criteria : List Criterion) (b : Bool)
    (h : ∀ c ∈ criteria, (lookupStr d c.field).isSome) :
    search_find d criteria b =
      .ok (b || criteria.any (fun c =>
        strIn (pyLower c.value) (pyLower ((lookupStr d c.field).getD "")))) := by
  induction criteria generalizing b with
  | nil => simp [search_find]
  | cons c rest ih =>
    obtain ⟨s, hs⟩ := Option.isSome_iff_exists.mp (h c (by simp))
    have hrest : ∀ c2 ∈ rest, (lookupStr d c2.field).isSome := by
      intro c2 hc2
      exact h c2 (by simp [hc2])
    simp only [search_find, hs, List.any_cons, Option.getD_some]
    rw [ih _ hrest, Bool.or_assoc]

/-- C10: constructing a GlpiService whose only credential is one of the
literal placeholder strings YOUR AUTH TOKEN, YOUR SERVICE USERNAME or
YOUR SERVICE PASSWORD fails at construction with a GlpiException: the
placeholders are normalized to absent credentials before the final
credential-presence check, so they never authenticate. -/
theorem C10_placeholder_credentials_rejected (url uri app : String) :
    glpiServiceInit url (some app) uri none none (some "YOUR AUTH TOKEN") =
      .error (.glpiException credErrMsg) ∧
    glpiServiceInit url (some app) uri (some "YOUR SERVICE USERNAME") none none =
      .error (.glpiException credErrMsg) ∧
    glpiServiceInit url (some app) uri none (some "YOUR SERVICE PASSWORD") none =
      .error (.glpiException credErrMsg) := by
  refine ⟨?_, ?_, ?_⟩ <;>
    simp [glpiServiceInit, finishInit, normTokenAuth, normUsername, normPassword]

/-- C7: for every list of fetched items and every criteria list of
field/value pairs (with every named field present in every item, the only
case the source handles without raising), search returns exactly the items
for which at least one criterion value occurs as a case-insensitive
substring of the item value for the named field, in fetched order. -/
theorem C7_search_criteria_filters (data : List Item)
    (criteria : List Criterion)
    (h : ∀ d ∈ data, ∀ c ∈ criteria, (lookupStr d c.field).isSome) :
    search_criteria data criteria =
      .ok (data.filter (fun d => criteria.any (fun c =>
        strIn (pyLower c.value) (pyLower ((lookupStr d c.field).getD ""))))) := by
  induction data with
  | nil => rfl
  | cons d rest ih =>
    have hd : ∀ c ∈ criteria, (lookupStr d c.field).isSome :=
      fun c hc => h d (by simp) c hc
    have hrest : ∀ d2 ∈ rest, ∀ c ∈ criteria, (lookupStr d2 c.field).isSome :=
      fun d2 hd2 c hc => h d2 (by simp [hd2]) c hc
    simp only [search_criteria, search_find_ok d criteria false hd, ih hrest,
      Bool.false_or, List.filter_cons]

/-- C7 witness: a concrete two-item list where one item matches the
criterion case-insensitively. -/
theorem C7_search_criteria_filters_witness :
    search_criteria [[("name", "ABCdef")], [("name", "xyz")]]
        [{ field := "name", value := "bcD" }] =
      .ok [[("name", "ABCdef")]] := by
  rw [C7_search_criteria_filters _ _ (by decide)]
  rfl

/-- Decidable equality for Except outcomes, used by concrete witnesses. -/
instance {ε α : Type} [DecidableEq ε] [DecidableEq α] :
    DecidableEq (Except ε α) := fun x y =>
  match x, y with
  | .ok a, .ok b =>
    if h : a = b then .isTrue (by rw [h]) else .isFalse (by simp [h])
  | .error a, .error b =>
    if h : a = b then .isTrue (by rw [h]) else .isFalse (by simp [h])
  | .ok _, .error _ => .isFalse (by simp)
  | .error _, .ok _ => .isFalse (by simp)

/-- A client with a cached session, used by the C1 statements. -/
def c1Client : Client :=
  { url := "http://glpi.example", app_token := some "APP", uri := "/Ticket",
    username := none, password := none, token_auth := some "TOK",
    session := some "CACHED" }

/-- A transport answering every request with an empty 200 object. -/
def c1Transport : Transport :=
  fun _ => { status := 200, body := some (.obj []) }

/-- C1, counterexample: the claim says caller headers cannot override
Session-Token.  With the session token CACHED in the cache, a caller
header Session-Token=evil is what the single transmitted request actually
carries, because the caller merge happens after the token headers are
set. -/
theorem C1_counterexample_caller_overrides_session_token :
    ((request c1Transport c1Client "GET" "/x" false
        [("Session-Token", some "evil")] none none none none).trace.map
      (fun q => getCI q.headers "Session-Token")) = [some (some "evil")] ∧
    c1Client.session = some "CACHED" := by
  exact ⟨rfl, rfl⟩

/-- C1, amended: request with a cached session transmits exactly one
request; caller-supplied headers win on conflict for every key, including
Session-Token and App-Token (their last non-null entry is what is
transmitted), and only when the caller does not supply a Session-Token or
App-Token header do the transmitted headers carry the cached session token
and the app token. -/
theorem C1_amended_header_merge (t : Transport) (c : Client) (m u : String)
    (aj : Bool) (caller : Headers) (p : Option PDict) (j : Option PDict)
    (d : Option Body) (f : Option PDict) (tok app : String)
    (hsess : c.session = some tok) (happ : c.app_token = some app) :
    (request t c m u aj caller p j d f).trace =
      [issuedRequest c m u aj caller p d] ∧
    (findLastCI (remove_null_values_headers caller) "Session-Token" = none →
      getCI (issuedRequest c m u aj caller p d).headers "Session-Token" =
        some (some tok)) ∧
    (findLastCI (remove_null_values_headers caller) "App-Token" = none →
      getCI (issuedRequest c m u aj caller p d).headers "App-Token" =
        some (some app)) ∧
    (∀ k v, findLastCI (remove_null_values_headers caller) k = some v →
      getCI (issuedRequest c m u aj caller p d).headers k = some v) := by
  have hh : (issuedRequest c m u aj caller p d).headers =
      buildHeaders (some tok) (some app) aj caller := by
    simp [issuedRequest, hsess, happ]
  refine ⟨?_, ?_, ?_, ?_⟩
  · rw [request_cached t c m u aj caller p j d f tok hsess]
    exact handleResponse_trace _ _ _ _
  · intro hnone
    rw [hh]
    unfold buildHeaders
    rw [getCI_updateCI, hnone, getCI_setCI, if_neg (by decide), getCI_setCI,
      if_pos rfl]
  · intro hnone
    rw [hh]
    unfold buildHeaders
    rw [getCI_updateCI, hnone, getCI_setCI, if_pos rfl]
  · intro k v hlast
    rw [hh]
    unfold buildHeaders
    rw [getCI_updateCI, hlast]

/-- C1 witness: for a caller that supplies neither token header, the
transmitted request carries the cached session token and app token, and a
supplied extra header wins with its own value. -/
theorem C1_amended_header_merge_witness :
    (request c1Transport c1Client "GET" "/x" false [("X-Extra", some "1")]
        none none none none).trace =
      [issuedRequest c1Client "GET" "/x" false [("X-Extra", some "1")] none none] ∧
    getCI (issuedRequest c1Client "GET" "/x" false [("X-Extra", some "1")]
        none none).headers "Session-Token" = some (some "CACHED") ∧
    getCI (issuedRequest c1Client "GET" "/x" false [("X-Extra", some "1")]
        none none).headers "App-Token" = some (some "APP") ∧
    getCI (issuedRequest c1Client "GET" "/x" false [("X-Extra", some "1")]
        none none).headers "X-Extra" = some (some "1") := by
  have h := C1_amended_header_merge c1Transport c1Client "GET" "/x" false
    [("X-Extra", some "1")] none none none none "CACHED" "APP" rfl rfl
  exact ⟨h.1, h.2.1 (by decide), h.2.2.1 (by decide),
    h.2.2.2 "X-Extra" (some "1") (by decide)⟩

/-- A client with a cached session, used by the C3 statements. -/
def c3Client : Client :=
  { url := "http://glpi.example", app_token := some "APP", uri := "/Ticket",
    username := none, password := none, token_auth := some "TOK",
    session := some "SESS" }

/-- A transport answering 500 with an unparseable body. -/
def c3Transport : Transport := fun _ => { status := 500, body := none }

/-- C3, counterexample: the claim says the fallback message for an
unparseable non-2xx non-401 body is Unknown error with the status code
appended.  On a 500 with an unparseable body the raised GlpiException
carries exactly Unknown error, without any code suffix, because
response.json() raises before the suffix concatenation is reached. -/
theorem C3_counterexample_no_code_suffix :
    (request c3Transport c3Client "GET" "/x" false [] none none none
        none).result = .error (.glpiException "Unknown error") ∧
    "Unknown error" ≠ "Unknown error" ++ ", Code: " ++ toString 500 := by
  exact ⟨rfl, by decide⟩

/-- C3, amended: for every non-2xx response with status other than 401
whose body cannot be parsed as JSON at all, the GlpiException raised by
request carries exactly the message Unknown error, with no status code
appended (the code suffix is only reached when the body parses). -/
theorem C3_amended_unknown_error_plain (t : Transport) (c : Client)
    (m u : String) (aj : Bool) (hdrs : Headers) (p : Option PDict)
    (j : Option PDict) (d : Option Body) (f : Option PDict) (tok : String)
    (s : Nat) (hsess : c.session = some tok)
    (hresp : t (issuedRequest c m u aj hdrs p d) = { status := s, body := none })
    (hlow : ¬(200 ≤ s ∧ s ≤ 299)) (h401 : s ≠ 401) :
    (request t c m u aj hdrs p j d f).result =
      .error (.glpiException "Unknown error") := by
  rw [request_cached t c m u aj hdrs p j d f tok hsess, hresp]
  unfold handleResponse
  rw [if_neg hlow, if_neg h401]
  rfl

/-- C3 witness: the amended statement at a concrete 500 response. -/
theorem C3_amended_unknown_error_plain_witness :
    (request c3Transport c3Client "GET" "/x" true [] none none none
        none).result = .error (.glpiException "Unknown error") :=
  C3_amended_unknown_error_plain c3Transport c3Client "GET" "/x" true [] none
    none none none "SESS" 500 rfl rfl (by decide) (by decide)

/-- The 2xx body that signals an application-level error, used by C5. -/
def c5Body : RespBody :=
  .obj [("status", .leaf (.jstr "ERROR")),
        ("statusInfo", .leaf (.jstr "invalid-app-token"))]

/-- A transport answering 200 with the error-signalling body. -/
def c5Transport : Transport := fun _ => { status := 200, body := some c5Body }

/-- A client with a cached session, used by the C5 statements. -/
def c5Client : Client :=
  { url := "http://glpi.example", app_token := some "APP", uri := "/Ticket",
    username := none, password := none, token_auth := some "TOK",
    session := some "SESS" }

/-- C5, counterexample: the claim quantifies over every 2xx response whose
JSON body has status ERROR, but when JSON parsing was not requested the
body is never inspected: the raw 200 response is returned and no GlpiError
is raised, even though the body signals invalid-app-token. -/
theorem C5_counterexample_accept_json_false :
    (request c5Transport c5Client "GET" "/x" false [] none none none
        none).result = .ok (.raw { status := 200, body := some c5Body }) ∧
    bodyStatusIsError c5Body = true := by
  exact ⟨rfl, rfl⟩

/-- C5, amended: for every 2xx response whose JSON body has a status field
equal to ERROR, request with accept_json set fails with a GlpiError
carrying the status-info message of the server, with the effective HTTP
status re-mapped to 400 in general and to 401 exactly when the error code
is the literal invalid-app-token. -/
theorem C5_amended_error_body_remapped (t : Transport) (c : Client)
    (m u : String) (hdrs : Headers) (p : Option PDict) (j : Option PDict)
    (d : Option Body) (f : Option PDict) (tok : String) (s : Nat)
    (bod : List (String × JVal)) (info : String)
    (hsess : c.session = some tok)
    (hresp : t (issuedRequest c m u true hdrs p d) =
      { status := s, body := some (.obj bod) })
    (h2xx : 200 ≤ s ∧ s ≤ 299)
    (hstat : lookupJ bod "status" = some (.leaf (.jstr "ERROR")))
    (hinfo : lookupJ bod "statusInfo" = some (.leaf (.jstr info))) :
    (request t c m u true hdrs p j d f).result =
      .error (.glpiException ("Error: " ++ info)) ∧
    (request t c m u true hdrs p j d f).finalStatus =
      some (if info = "invalid-app-token" then 401 else 400) := by
  have hbe : bodyStatusIsError (.obj bod) = true := by
    simp [bodyStatusIsError, hstat]
  have hfull : request t c m u true hdrs p j d f =
      { client := c,
        result := .error (.glpiException ("Error: " ++ info)),
        finalStatus := some (if info = "invalid-app-token" then 401 else 400),
        trace := [issuedRequest c m u true hdrs p d] } := by
    rw [request_cached t c m u true hdrs p j d f tok hsess, hresp]
    unfold handleResponse
    rw [if_pos h2xx]
    simp only [hbe, if_true, hinfo]
  rw [hfull]
  exact ⟨rfl, rfl⟩

/-- C5 witness: the amended statement at a concrete invalid-app-token
response, re-mapped to 401. -/
theorem C5_amended_error_body_remapped_witness :
    (request c5Transport c5Client "GET" "/x" true [] none none none
        none).result =
      .error (.glpiException ("Error: " ++ "invalid-app-token")) ∧
    (request c5Transport c5Client "GET" "/x" true [] none none none
        none).finalStatus =
      some (if "invalid-app-token" = "invalid-app-token" then 401 else 400) :=
  C5_amended_error_body_remapped c5Transport c5Client "GET" "/x" [] none none
    none none "SESS" 200
    [("status", .leaf (.jstr "ERROR")),
     ("statusInfo", .leaf (.jstr "invalid-app-token"))]
    "invalid-app-token" rfl rfl (by decide) (by decide) (by decide)

/-- C6: with a cached session, request transmits exactly one HTTP call
whose params are the null-stripped and boolean-cleaned caller params and
whose body is the null-stripped caller data; the transmitted params carry
no null and no native boolean value (booleans became the strings true and
false), the transmitted dict body carries no null value, and the files
argument undergoes the same null-stripping step before the call (its
stripped form carries no null value; it is not part of the wire request,
see the C9 theorem). -/
theorem C6_null_strip_and_bool_cleanup (t : Transport) (c : Client)
    (m u : String) (aj : Bool) (hdrs : Headers) (p : Option PDict)
    (j : Option PDict) (d : Option Body) (f : Option PDict) (tok : String)
    (hsess : c.session = some tok) :
    (request t c m u aj hdrs p j d f).trace =
      [issuedRequest c m u aj hdrs p d] ∧
    (issuedRequest c m u aj hdrs p d).params =
      (p.map remove_null_values).map cleanup_param_values ∧
    (∀ l, (issuedRequest c m u aj hdrs p d).params = some l →
      ∀ kv ∈ l, kv.2 ≠ PVal.null ∧ ∀ b, kv.2 ≠ PVal.bool b) ∧
    (issuedRequest c m u aj hdrs p d).data = d.map remove_null_values_body ∧
    (∀ dd, d = some (.dict dd) →
      (issuedRequest c m u aj hdrs p d).data =
        some (.dict (remove_null_values dd)) ∧
      ∀ kv ∈ remove_null_values dd, kv.2 ≠ PVal.null) ∧
    (∀ fl, f = some fl → ∀ kv ∈ remove_null_values fl, kv.2 ≠ PVal.null) := by
  refine ⟨?_, rfl, ?_, rfl, ?_, ?_⟩
  · rw [request_cached t c m u aj hdrs p j d f tok hsess]
    exact handleResponse_trace _ _ _ _
  · intro l hl kv hkv
    cases p with
    | none => simp [issuedRequest] at hl
    | some l0 =>
      simp only [issuedRequest, Option.map_some] at hl
      cases hl
      obtain ⟨kv0, hkv0, hmap⟩ := List.mem_map.mp hkv
      have hnn : kv0.2 ≠ PVal.null := mem_remove_null_values _ _ hkv0
      constructor
      · rw [← hmap]
        exact cleanup_param_value_ne_null _ hnn
      · intro b
        rw [← hmap]
        exact cleanup_param_value_ne_bool _ b
  · intro dd hdd
    subst hdd
    exact ⟨rfl, fun kv hkv => mem_remove_null_values _ _ hkv⟩
  · intro fl hfl kv hkv
    exact mem_remove_null_values _ _ hkv

/-- A client with a cached session, used by the C6 witness. -/
def c6Client : Client :=
  { url := "http://glpi.example", app_token := some "APP", uri := "/Ticket",
    username := none, password := none, token_auth := some "TOK",
    session := some "SESS" }

/-- A transport answering every request with an empty 200 object, for the
C6 witness. -/
def c6Transport : Transport :=
  fun _ => { status := 200, body := some (.obj []) }

/-- C6 witness: a concrete request with a null param, a boolean param, a
null body entry and a null file entry. -/
theorem C6_null_strip_and_bool_cleanup_witness :
    (issuedRequest c6Client "GET" "/x" false []
        (some [("a", PVal.null), ("b", PVal.bool true)])
        (some (.dict [("c", PVal.null), ("d", PVal.int 7)]))).params =
      some [("b", PVal.str "true")] ∧
    (issuedRequest c6Client "GET" "/x" false []
        (some [("a", PVal.null), ("b", PVal.bool true)])
        (some (.dict [("c", PVal.null), ("d", PVal.int 7)]))).data =
      some (.dict [("d", PVal.int 7)]) ∧
    (request c6Transport c6Client "GET" "/x" false []
        (some [("a", PVal.null), ("b", PVal.bool true)]) none
        (some (.dict [("c", PVal.null), ("d", PVal.int 7)]))
        (some [("e", PVal.null)])).trace =
      [issuedRequest c6Client "GET" "/x" false []
        (some [("a", PVal.null), ("b", PVal.bool true)])
        (some (.dict [("c", PVal.null), ("d", PVal.int 7)]))] := by
  have h := C6_null_strip_and_bool_cleanup c6Transport c6Client "GET" "/x"
    false [] (some [("a", PVal.null), ("b", PVal.bool true)]) none
    (some (.dict [("c", PVal.null), ("d", PVal.int 7)]))
    (some [("e", PVal.null)]) "SESS" rfl
  exact ⟨by decide, by decide, h.1⟩

/-- C9: the json argument of request is never forwarded to the transport.
The whole outcome of request is unchanged under replacement of the json
argument, and a caller that supplies only json (data absent) transmits a
single request whose body is none. -/
theorem C9_json_never_forwarded (t : Transport) (c : Client) (m u : String)
    (aj : Bool) (hdrs : Headers) (p : Option PDict) (j j2 : Option PDict)
    (f : Option PDict) (d : Option Body) (tok : String)
    (hsess : c.session = some tok) :
    request t c m u aj hdrs p j d f = request t c m u aj hdrs p j2 d f ∧
    (request t c m u aj hdrs p j none f).trace =
      [issuedRequest c m u aj hdrs p none] ∧
    (issuedRequest c m u aj hdrs p none).data = none := by
  refine ⟨rfl, ?_, rfl⟩
  rw [request_cached t c m u aj hdrs p j none f tok hsess]
  exact handleResponse_trace _ _ _ _

/-- A client with a cached session, used by the C9 witness. -/
def c9Client : Client :=
  { url := "http://glpi.example", app_token := some "APP", uri := "/Ticket",
    username := none, password := none, token_auth := some "TOK",
    session := some "SESS" }

/-- A transport answering every request with an empty 200 object, for the
C9 witness. -/
def c9Transport : Transport :=
  fun _ => { status := 200, body := some (.obj []) }

/-- C9 witness: a caller supplying only a json argument transmits one
request with no body, identical to the request sent with no json at all. -/
theorem C9_json_never_forwarded_witness :
    request c9Transport c9Client "GET" "/x" false [] none
        (some [("k", PVal.str "v")]) none none =
      request c9Transport c9Client "GET" "/x" false [] none none none none ∧
    (request c9Transport c9Client "GET" "/x" false [] none
        (some [("k", PVal.str "v")]) none none).trace =
      [issuedRequest c9Client "GET" "/x" false [] none none] ∧
    (issuedRequest c9Client "GET" "/x" false [] none none).data = none := by
  have h := C9_json_never_forwarded c9Transport c9Client "GET" "/x" false []
    none (some [("k", PVal.str "v")]) none none none "SESS" rfl
  exact ⟨h.1, h.2.1, h.2.2⟩

/-- A transport answering every request with an empty 200 object, for the
C2 statements. -/
def c2Transport : Transport :=
  fun _ => { status := 200, body := some (.obj []) }

/-- A freshly constructed router with the built-in item map, for the C2
statements. -/
def c2Router : Router :=
  glpiInit "http://glpi.example" (some "APP") (some "TOK") none

/-- C2, counterexample: the claim says an unknown item name yields a
structured message_error object.  For the name computer, absent from the
built-in map, get_all raises a KeyError (an exception, not a returned
value). -/
theorem C2_counterexample_unknown_item_raises :
    (router_get_all c2Transport c2Router "computer").2.1 =
      .error .keyError ∧
    lookupStr c2Router.item_map "computer" = none := by
  exact ⟨rfl, rfl⟩

/-- C2, amended: for every Router operation (get_all, get, create, and
search with a criteria key) invoked with an item_name that is not a key of
the item map, the call raises a KeyError; the structured message_error
objects are returned only for readiness failures and malformed search
criteria, not for unknown item names. -/
theorem C2_amended_unknown_item_keyerror (t : Transport) (r : Router)
    (name : String) (iid : PVal) (dat : Option PDict)
    (crit : List Criterion) (h : lookupStr r.item_map name = none) :
    (router_get_all t r name).2.1 = .error .keyError ∧
    (router_get t r name iid).2.1 = .error .keyError ∧
    (router_create t r name dat).2.1 = .error .keyError ∧
    (router_search t r name
        { criteria := some crit, metacriteria := none }).2.1 =
      .error .keyError := by
  have hi : init_item t r name = (r, .error .keyError, []) := by
    unfold init_item
    rw [h]
  refine ⟨?_, ?_, ?_, ?_⟩
  · unfold router_get_all
    rw [hi]
  · unfold router_get
    rw [hi]
  · unfold router_create
    rw [hi]
  · unfold router_search router_get_all
    rw [hi]

/-- C2 witness: the amended statement at the concrete unknown name
computer on the default router. -/
theorem C2_amended_unknown_item_keyerror_witness :
    (router_get_all c2Transport c2Router "computer").2.1 =
      Except.error PyError.keyError ∧
    (router_get c2Transport c2Router "computer" (PVal.int 1)).2.1 =
      Except.error PyError.keyError ∧
    (router_create c2Transport c2Router "computer" (some [])).2.1 =
      Except.error PyError.keyError ∧
    (router_search c2Transport c2Router "computer"
        { criteria := some [{ field := "name", value := "x" }],
          metacriteria := none }).2.1 =
      Except.error PyError.keyError :=
  C2_amended_unknown_item_keyerror c2Transport c2Router "computer"
    (PVal.int 1) (some []) [{ field := "name", value := "x" }] (by decide)

/-- A client with a cached session, used by the C4 statements. -/
def c4Client : Client :=
  { url := "http://glpi.example", app_token := some "APP", uri := "/Ticket",
    username := none, password := none, token_auth := some "TOK",
    session := some "SESS" }

/-- A transport answering every request with an empty 200 object, for the
C4 statements. -/
def c4Transport : Transport :=
  fun _ => { status := 200, body := some (.obj []) }

/-- C4, counterexample: the claim says an empty data mapping makes create
return early without any HTTP call.  An empty dict is not special-cased:
create with an empty mapping issues a POST (the trace is nonempty). -/
theorem C4_counterexample_empty_dict_posts :
    (service_create c4Transport c4Client (some [])).trace ≠ [] := by
  decide

/-- C4, amended: only a None data argument makes create return early, with
the literal error string of the source, an unchanged client and no HTTP
call; a present (even empty) mapping is wrapped in the input envelope and
POSTed. -/
theorem C4_amended_none_returns_early (t : Transport) (c : Client)
    (dat : PDict) (tok : String) (hsess : c.session = some tok) :
    (service_create t c none).client = c ∧
    (service_create t c none).result = .ok (.strLit objectNotFoundStr) ∧
    (service_create t c none).trace = [] ∧
    (service_create t c (some dat)).trace =
      [issuedRequest c "POST" c.uri true [] none
        (some (.str (createPayload dat)))] := by
  refine ⟨rfl, rfl, rfl, ?_⟩
  show (createResult _).trace = _
  rw [createResult_trace,
    request_cached t c "POST" c.uri true [] none none
      (some (.str (createPayload dat))) none tok hsess]
  exact handleResponse_trace _ _ _ _

/-- C4 witness: the amended statement at an empty concrete mapping. -/
theorem C4_amended_none_returns_early_witness :
    (service_create c4Transport c4Client none).client = c4Client ∧
    (service_create c4Transport c4Client none).result =
      .ok (.strLit objectNotFoundStr) ∧
    (service_create c4Transport c4Client none).trace = [] ∧
    (service_create c4Transport c4Client (some [])).trace =
      [issuedRequest c4Client "POST" "/Ticket" true [] none
        (some (.str (createPayload [])))] :=
  C4_amended_none_returns_early c4Transport c4Client [] "SESS" rfl

/-- The cached-session client bound to the ticket path, used by the C8
statements. -/
def c8Client : Client :=
  { url := "http://glpi.example", app_token := some "APP", uri := "/Ticket",
    username := none, password := none, token_auth := some "TOK",
    session := some "SESS" }

/-- A router already initialized on the ticket item with a cached session,
used by the C8 statements. -/
def c8Router : Router :=
  { url := "http://glpi.example", app_token := some "APP",
    auth_token := some "TOK", item_uri := some "/Ticket",
    item_map := defaultItemMap, api_rest := some c8Client,
    api_session := some "SESS" }

/-- A transport that would be consulted were any request issued, for the
C8 witness. -/
def c8Transport : Transport :=
  fun _ => { status := 200, body := some (.obj []) }

/-- C8: for a router whose client already holds a cached session token,
init_item on a different item name rebinds the item uri and the client
target path, returns True, leaves the session token of the client
unchanged, and issues no HTTP request at all (in particular no second
session-init). -/
theorem C8_rebind_without_reauth (t : Transport) (r : Router)
    (name uri tok : String) (c : Client)
    (hmap : lookupStr r.item_map name = some uri)
    (hdiff : r.item_uri ≠ some uri)
    (hapi : r.api_rest = some c)
    (hsess : c.session = some tok) :
    init_item t r name =
      ({ r with item_uri := some uri
                api_rest := some { c with uri := uri } }, .ok true, []) ∧
    ({ c with uri := uri } : Client).session = some tok := by
  refine ⟨?_, hsess⟩
  unfold init_item
  rw [hmap]
  have hb : (r.item_uri != some uri) = true := by
    simp [bne_iff_ne, hdiff]
  simp only [hb, if_true]
  have hapi2 : ({ r with item_uri := some uri } : Router).api_rest = some c :=
    hapi
  rw [hapi2]
  simp [set_api_uri]

/-- C8 witness: switching the concrete router from the ticket item to the
knowbase item rebinds both paths, keeps the session and issues nothing. -/
theorem C8_rebind_without_reauth_witness :
    init_item c8Transport c8Router "knowbase" =
      ({ c8Router with item_uri := some "/knowbaseitem"
                       api_rest := some { c8Client with uri := "/knowbaseitem" } },
        .ok true, []) ∧
    ({ c8Client with uri := "/knowbaseitem" } : Client).session =
      some "SESS" :=
  C8_rebind_without_reauth c8Transport c8Router "knowbase" "/knowbaseitem"
    "SESS" c8Client (by decide) (by decide) rfl rfl

end GlpiSdk

